import Mathlib

/-!
Verification of the Hippocrates AI retrieval-augmented diagnosis pipeline
(`src/rag_chain.py`, `src/main.py`).

The development shallowly embeds the pipeline's pure core:

* the data model (`ConditionRecord`, `Document`, `DiagnosisCandidate`,
  `DiagnosisResult`);
* the keyword-matching responder `MedicalLLM._call` (`medicalCall`);
* the prompt template of `create_medical_prompt` and the stuff-chain
  prompt assembly, so that `respond query docs` is the structured result
  the pipeline produces for a query together with retrieved documents;
* `create_documents_from_knowledge`, both over well-typed records and
  over raw parsed-JSON values (where missing dict keys raise `KeyError`);
* the JSON wire shape of a `DiagnosisResult` at the level of parsed JSON
  values (`JValue`), with the encoder mirroring the dicts passed to
  `json.dumps` in `_call` and the decoder mirroring the field accesses in
  `main.py` after `json.loads`.

Python strings are embedded as Lean `String`; `str.lower` as an
ASCII-case map, `str.strip` as whitespace trimming on both ends, and the
`in` operator as substring occurrence (`strContains`).
-/

namespace Hippocrates

/-! ## Data model -/

/-- Metadata attached to an indexed document (`create_documents_from_knowledge`
builds `{"condition": ..., "source": ...}`). -/
structure DocMetadata where
  condition : String
  source : String
deriving DecidableEq, Repr

/-- A LangChain `Document`: a text blob plus metadata. -/
structure Document where
  page_content : String
  metadata : DocMetadata
deriving DecidableEq, Repr

/-- One entry of `differential_diagnosis` in the responder's output
(`condition` / `confidence` / `evidence`, all strings in the code). -/
structure DiagnosisCandidate where
  condition : String
  confidence : String
  evidence : String
deriving DecidableEq, Repr

/-- The structured result the responder emits: the dict serialized by
`json.dumps` inside `MedicalLLM._call`. -/
structure DiagnosisResult where
  differential_diagnosis : List DiagnosisCandidate
  next_steps : List String
  red_flags : List String
deriving DecidableEq, Repr

/-- The `key_factors` sub-record of a knowledge-base entry. -/
structure KeyFactors where
  onset : String
  age_group : String
deriving DecidableEq, Repr

/-- A knowledge-base record, as consumed by
`create_documents_from_knowledge`. -/
structure ConditionRecord where
  condition : String
  symptoms : List String
  key_factors : KeyFactors
  diagnostic_tests : List String
  differential : List String
  source : String
deriving DecidableEq, Repr

/-! ## String primitives (Python `lower`, `strip`, `in`) -/

/-- `startsList pat l` holds when `pat` is an initial segment of `l`. -/
def startsList : List Char → List Char → Bool
  | [], _ => true
  | _ :: _, [] => false
  | p :: ps, c :: cs => p == c && startsList ps cs

/-- `occursList pat l` holds when `pat` occurs contiguously somewhere in
`l`; this is Python's `pat in l` on strings. -/
def occursList (pat : List Char) : List Char → Bool
  | [] => startsList pat []
  | c :: cs => startsList pat (c :: cs) || occursList pat cs

/-- Python's substring test `pat in s`. -/
def strContains (s pat : String) : Bool :=
  occursList pat.data s.data

/-- Python's `str.lower()` (ASCII case folding; every string this program
manipulates is ASCII). -/
def pyLower (s : String) : String :=
  ⟨s.data.map Char.toLower⟩

/-- Whitespace as stripped by Python's `str.strip()`: space and the
control characters 9 to 13 (tab, LF, VT, FF, CR). -/
def isPySpace (c : Char) : Bool :=
  c == ' ' || (9 ≤ c.toNat && c.toNat ≤ 13)

/-- Trim `isPySpace` characters from both ends of a character list. -/
def trimChars (l : List Char) : List Char :=
  (((l.dropWhile isPySpace).reverse.dropWhile isPySpace)).reverse

/-- Python's `str.strip()`. -/
def pyStrip (s : String) : String :=
  ⟨trimChars s.data⟩

/-! ## The responder `MedicalLLM._call` -/

/-- Trigger words of the influenza branch of `_call`. -/
def influenzaTriggers : List String := ["flu", "influenza"]

/-- Trigger words of the common-cold branch of `_call`. -/
def coldTriggers : List String := ["cold", "runny nose", "sneezing"]

/-- Trigger words of the strep branch of `_call`. -/
def strepTriggers : List String := ["strep", "sore throat", "throat pain"]

/-- Trigger words of the COVID-19 branch of `_call`. -/
def covidTriggers : List String := ["covid", "coronavirus"]

/-- The influenza candidate of the influenza template in `_call`. -/
def influenzaCandidate : DiagnosisCandidate :=
  ⟨"Influenza (Flu)", "High",
    "Based on reported symptoms matching common influenza presentation"⟩

/-- The result template of the influenza branch of `_call`. -/
def influenzaResult : DiagnosisResult :=
  ⟨[influenzaCandidate],
    ["Rapid Influenza Test", "Symptom management"],
    ["High fever persistent more than 3 days", "Difficulty breathing"]⟩

/-- The common-cold candidate of the cold template in `_call`. -/
def coldCandidate : DiagnosisCandidate :=
  ⟨"Common Cold", "High",
    "Symptoms consistent with viral upper respiratory infection"⟩

/-- The result template of the common-cold branch of `_call`. -/
def coldResult : DiagnosisResult :=
  ⟨[coldCandidate],
    ["Symptomatic treatment", "Rest and hydration"],
    ["High fever", "Symptoms worsening after 7 days"]⟩

/-- The strep candidate of the strep template in `_call`. -/
def strepCandidate : DiagnosisCandidate :=
  ⟨"Strep Pharyngitis", "Medium",
    "Sore throat presentation requires further evaluation"⟩

/-- The result template of the strep branch of `_call`. -/
def strepResult : DiagnosisResult :=
  ⟨[strepCandidate],
    ["Rapid Strep Test", "Throat culture if negative"],
    ["Difficulty swallowing", "Difficulty breathing"]⟩

/-- The COVID-19 candidate of the COVID template in `_call`. -/
def covidCandidate : DiagnosisCandidate :=
  ⟨"COVID-19", "Medium",
    "Respiratory symptoms consistent with COVID-19"⟩

/-- The result template of the COVID-19 branch of `_call`. -/
def covidResult : DiagnosisResult :=
  ⟨[covidCandidate],
    ["COVID-19 PCR Test", "Antigen test"],
    ["Severe respiratory distress", "Oxygen saturation <94%"]⟩

/-- The no-match result of the final `else` branch of `_call`. -/
def noMatchResult : DiagnosisResult :=
  ⟨[], ["Please provide more specific symptoms"], []⟩

/-- Python's `any(word in q for word in ws)`. -/
def containsAnyWord (q : String) (ws : List String) : Bool :=
  ws.any (fun w => strContains q w)

/-- `MedicalLLM._call` from `src/rag_chain.py`: lowercase the whole
prompt it receives, then test the four trigger lists in order and return
the first firing branch's template (the dict whose `json.dumps` the code
returns). -/
def medicalCall (prompt : String) : DiagnosisResult :=
  let query_lower := pyLower prompt
  if containsAnyWord query_lower influenzaTriggers then influenzaResult
  else if containsAnyWord query_lower coldTriggers then coldResult
  else if containsAnyWord query_lower strepTriggers then strepResult
  else if containsAnyWord query_lower covidTriggers then covidResult
  else noMatchResult

/-! ## The prompt template and the per-query pipeline -/

/-- The part of the `create_medical_prompt` template that precedes the
`context` placeholder, with Python's doubled braces rendered as literal
braces as `str.format` does. -/
def templatePre : String :=
  "\n    You are Hippocrates AI, a meticulous and cautious medical assistant. Your goal is to help a doctor formulate a differential diagnosis for an upper respiratory infection.\n" ++
  "\n" ++
  "    **RULES:**\n" ++
  "    1.  You MUST conduct a structured interview. Ask ONE clarifying question at a time based on the provided medical context.\n" ++
  "    2.  You MUST base your reasoning ONLY on the provided <medical_context>.\n" ++
  "    3.  Your questions should be precise and clinical (e.g., \"What is the patient\x27s temperature?\" or \"Is the cough productive?\").\n" ++
  "    4.  When you have enough information, output a JSON object with the following structure:\n" ++
  "        \x7b\n" ++
  "            \"differential_diagnosis\": [\n" ++
  "                \x7b\n" ++
  "                    \"condition\": \"Condition Name\",\n" ++
  "                    \"confidence\": \"High/Medium/Low\",\n" ++
  "                    \"evidence\": \"List the key symptoms/factors that support this.\"\n" ++
  "                \x7d\n" ++
  "            ],\n" ++
  "            \"next_steps\": [\"Test 1\", \"Test 2\"],\n" ++
  "            \"red_flags\": [\"Flag 1\", \"Flag 2\"]\n" ++
  "        \x7d\n" ++
  "    5.  Always remind the user you are an AI assistant and not a substitute for professional judgment.\n" ++
  "\n" ++
  "    <medical_context>\n" ++
  "    "

/-- The template text between the `context` and `question` placeholders. -/
def templateMid : String :=
  "\n    </medical_context>\n\n    Doctor\x27s Input: "

/-- The template text after the `question` placeholder. -/
def templatePost : String :=
  "\n    "

/-- `PromptTemplate.format` for `create_medical_prompt`: substitute the
retrieved context and the question into the template. -/
def formatPrompt (context question : String) : String :=
  templatePre ++ context ++ templateMid ++ question ++ templatePost

/-- The stuff-chain's context assembly in `RetrievalQA.from_chain_type`
(`chain_type="stuff"`): the retrieved documents' texts joined by a blank
line. -/
def joinDocs (docs : List Document) : String :=
  String.intercalate "\n\n" (docs.map Document.page_content)

/-- The per-query pipeline of `setup_rag_chain`: format the prompt from
the retrieved documents and the query, and run `MedicalLLM._call` on it.
This is the structured result behind the JSON string the chain returns. -/
def respond (query : String) (docs : List Document) : DiagnosisResult :=
  medicalCall (formatPrompt (joinDocs docs) query)

/-- The five conditions of the knowledge base, as listed by the UI
(`src/main.py`, sidebar). -/
def configuredConditions : List String :=
  ["Common Cold", "Influenza (Flu)", "Strep Pharyngitis", "COVID-19",
    "Allergic Rhinitis"]

/-! ## Building documents from the knowledge base -/

/-- The `text_content` f-string of `create_documents_from_knowledge`:
the record's fields concatenated in the source's order, with the
f-string's literal newlines and indentation. -/
def documentText (c : ConditionRecord) : String :=
  "\n        Condition: " ++ c.condition ++
  "\n        Symptoms: " ++ String.intercalate ", " c.symptoms ++
  "\n        Key Factors: Onset: " ++ c.key_factors.onset ++
  ". Age Group: " ++ c.key_factors.age_group ++ "." ++
  "\n        Diagnostic Tests: " ++ String.intercalate ", " c.diagnostic_tests ++
  "\n        Differential Diagnosis: " ++ String.intercalate ", " c.differential ++
  "\n        Source: " ++ c.source ++ "\n        "

/-- The `Document(...)` constructed per record in
`create_documents_from_knowledge`. -/
def documentOfRecord (c : ConditionRecord) : Document :=
  ⟨documentText c, ⟨c.condition, c.source⟩⟩

/-- `create_documents_from_knowledge` over well-typed records: one
document appended per record, in order. -/
def create_documents_from_knowledge (knowledge_data : List ConditionRecord) :
    List Document :=
  knowledge_data.map documentOfRecord

/-! ## Raw parsed-JSON values and the error model -/

/-- A parsed JSON value, restricted to the shapes this program uses
(strings, arrays, objects). Python's `json.load` / `json.loads` produce
such values; their string serialization layer is the standard library's
and is not re-modelled here. -/
inductive JValue where
  | str : String → JValue
  | arr : List JValue → JValue
  | obj : List (String × JValue) → JValue

/-- Errors a build of the document list can surface. `keyError k` models
Python's `KeyError` raised by a dict subscript on a missing key, and
`typeError` models `TypeError` from a subscript or `str.join` on a value
of the wrong shape. `configError` and `embeddingError` model the typed
errors the specification names; no code in the repository defines or
raises them. -/
inductive PyError where
  | keyError : String → PyError
  | typeError : PyError
  | configError : PyError
  | embeddingError : PyError
deriving DecidableEq, Repr

/-- Python dict subscript `d[k]` on a parsed JSON value: `KeyError` on a
missing key, `TypeError` when the value is not an object. -/
def dictGet (j : JValue) (k : String) : Except PyError JValue :=
  match j with
  | .obj fields =>
    match fields.find? (fun p => p.1 == k) with
    | some p => .ok p.2
    | none => .error (.keyError k)
  | _ => .error .typeError

/-- Require a parsed JSON value to be a string (as the f-string fields
and `metadata` values must be; a bare non-string scalar would be
stringified by the f-string, a corner no claim depends on). -/
def asString : JValue → Except PyError String
  | .str s => .ok s
  | _ => .error .typeError

/-- Require a parsed JSON value to be an array of strings, as
`", ".join(...)` does. -/
def asStringList : JValue → Except PyError (List String)
  | .arr xs => asStrings xs
  | _ => .error .typeError
where
  /-- Require every element of a parsed JSON array to be a string. -/
  asStrings : List JValue → Except PyError (List String)
  | [] => .ok []
  | x :: xs => do
    let s ← asString x
    let ss ← asStrings xs
    pure (s :: ss)

/-- The body of `create_documents_from_knowledge`'s loop on a raw parsed
record: the dict subscripts in the order the f-string and the
`Document(...)` call perform them, surfacing the first raised error. -/
def documentOfRecordJ (condition : JValue) : Except PyError Document := do
  let cond ← dictGet condition "condition" >>= asString
  let symptoms ← dictGet condition "symptoms" >>= asStringList
  let keyFactors ← dictGet condition "key_factors"
  let onset ← dictGet keyFactors "onset" >>= asString
  let ageGroup ← dictGet keyFactors "age_group" >>= asString
  let tests ← dictGet condition "diagnostic_tests" >>= asStringList
  let diff ← dictGet condition "differential" >>= asStringList
  let src ← dictGet condition "source" >>= asString
  pure (documentOfRecord ⟨cond, symptoms, ⟨onset, ageGroup⟩, tests, diff, src⟩)

/-- `create_documents_from_knowledge` over raw parsed-JSON records, as
`setup_rag_chain` runs it on the output of `load_knowledge_base`: the
loop stops at the first record that raises, and no partial document list
is returned. -/
def buildDocumentsJ : List JValue → Except PyError (List Document)
  | [] => .ok []
  | r :: rs =>
    match documentOfRecordJ r with
    | .error e => .error e
    | .ok d =>
      match buildDocumentsJ rs with
      | .error e => .error e
      | .ok ds => .ok (d :: ds)

/-! ## The wire shape of a `DiagnosisResult` -/

/-- The dict `_call` passes to `json.dumps` for one diagnosis candidate. -/
def encodeCandidate (c : DiagnosisCandidate) : JValue :=
  .obj [("condition", .str c.condition), ("confidence", .str c.confidence),
    ("evidence", .str c.evidence)]

/-- The dict `_call` passes to `json.dumps` for a whole result. -/
def encodeDiagnosisResult (r : DiagnosisResult) : JValue :=
  .obj [("differential_diagnosis",
      .arr (r.differential_diagnosis.map encodeCandidate)),
    ("next_steps", .arr (r.next_steps.map JValue.str)),
    ("red_flags", .arr (r.red_flags.map JValue.str))]

/-- `parsed_response.get(k, default)` from `main.py`: a missing key or a
non-object yields the default. -/
def jsonGetD (j : JValue) (k : String) (dflt : JValue) : JValue :=
  match j with
  | .obj fields =>
    match fields.find? (fun p => p.1 == k) with
    | some p => p.2
    | none => dflt
  | _ => dflt

/-- Read back one string field of a parsed JSON value. -/
def decodeString : JValue → Option String
  | .str s => some s
  | _ => none

/-- Read back a parsed JSON array of strings. -/
def decodeStrings : List JValue → Option (List String)
  | [] => some []
  | x :: xs => do
    let s ← decodeString x
    let ss ← decodeStrings xs
    pure (s :: ss)

/-- Read back one diagnosis candidate, by the field accesses `main.py`
performs on each entry of `differential_diagnosis`. -/
def decodeCandidate (j : JValue) : Option DiagnosisCandidate := do
  let cond ← decodeString (jsonGetD j "condition" (.arr []))
  let conf ← decodeString (jsonGetD j "confidence" (.arr []))
  let ev ← decodeString (jsonGetD j "evidence" (.arr []))
  pure ⟨cond, conf, ev⟩

/-- Read back a parsed JSON array of diagnosis candidates. -/
def decodeCandidates : List JValue → Option (List DiagnosisCandidate)
  | [] => some []
  | x :: xs => do
    let c ← decodeCandidate x
    let cs ← decodeCandidates xs
    pure (c :: cs)

/-- Decode a parsed JSON value back into a `DiagnosisResult`, following
the field accesses of `main.py`'s rendering block (each of the three
fields read with `.get`, a missing field treated as the empty list). -/
def decodeDiagnosisResult (j : JValue) : Option DiagnosisResult := do
  let dd ← match jsonGetD j "differential_diagnosis" (.arr []) with
    | .arr xs => decodeCandidates xs
    | _ => none
  let ns ← match jsonGetD j "next_steps" (.arr []) with
    | .arr xs => decodeStrings xs
    | _ => none
  let rf ← match jsonGetD j "red_flags" (.arr []) with
    | .arr xs => decodeStrings xs
    | _ => none
  pure ⟨dd, ns, rf⟩

/-! ## The specification-side responder (for the refinement claim) -/

/-- A condition matcher as the specification describes one: a trigger-term
set plus a fixed result template. -/
structure Matcher where
  triggers : List String
  template : DiagnosisResult

/-- Modelled from the spec: the ordered matcher list of section 4.4, in
the priority order Influenza, Common Cold, Strep Pharyngitis, COVID-19. -/
def specMatchers : List Matcher :=
  [⟨influenzaTriggers, influenzaResult⟩, ⟨coldTriggers, coldResult⟩,
    ⟨strepTriggers, strepResult⟩, ⟨covidTriggers, covidResult⟩]

/-- Modelled from the spec: return the template of the first matcher whose
trigger-term set intersects the normalized query; if none fires, the
no-match result. -/
def firstMatch (nq : String) : List Matcher → DiagnosisResult
  | [] => noMatchResult
  | m :: ms => if containsAnyWord nq m.triggers then m.template else firstMatch nq ms

/-- Modelled from the spec (section 4.4): normalize the query (lowercase,
trim), then evaluate the matchers in priority order, first match wins. -/
def responderSpec (query : String) : DiagnosisResult :=
  firstMatch (pyStrip (pyLower query)) specMatchers

/-- A pattern whose first character is not strippable whitespace (an
empty pattern counts). All ten trigger words satisfy this in both
directions. -/
def headNotSpace : List Char → Bool
  | [] => true
  | c :: _ => !isPySpace c

/-- A concrete knowledge-base record used to instantiate theorems with
hypotheses. -/
def sampleRecord : ConditionRecord :=
  ⟨"Common Cold", ["cough", "congestion"], ⟨"gradual", "all ages"⟩,
    ["physical exam"], ["influenza"], "CDC"⟩

/-! ## Lemmas about substring occurrence -/

/-- `startsList` agrees with prefix decomposition. -/
theorem starts_iff (pat : List Char) : ∀ l : List Char,
    startsList pat l = true ↔ ∃ t, l = pat ++ t := by
  induction pat with
  | nil => intro l; simp [startsList]
  | cons p ps ih =>
    intro l
    cases l with
    | nil => simp [startsList]
    | cons c cs =>
      simp only [startsList, Bool.and_eq_true, beq_iff_eq, ih, List.cons_append,
        List.cons.injEq]
      constructor
      · rintro ⟨rfl, t, rfl⟩; exact ⟨t, rfl, rfl⟩
      · rintro ⟨t, rfl, rfl⟩; exact ⟨rfl, t, rfl⟩

/-- The empty pattern occurs in every list. -/
theorem occurs_nil_pat (l : List Char) : occursList [] l = true := by
  cases l with
  | nil => rfl
  | cons c cs => simp [occursList, startsList]

/-- `occursList` agrees with infix decomposition. -/
theorem occurs_iff (pat : List Char) : ∀ l : List Char,
    occursList pat l = true ↔ ∃ s t, l = s ++ pat ++ t := by
  intro l
  induction l with
  | nil =>
    simp only [occursList, starts_iff]
    constructor
    · rintro ⟨t, h⟩; exact ⟨[], t, by simpa using h⟩
    · rintro ⟨s, t, h⟩
      rcases List.append_eq_nil.mp (List.append_eq_nil.mp h.symm).1 with ⟨rfl, rfl⟩
      exact ⟨t, by simpa using h⟩
  | cons c cs ih =>
    simp only [occursList, Bool.or_eq_true, starts_iff, ih]
    constructor
    · rintro (⟨t, h⟩ | ⟨s, t, h⟩)
      · exact ⟨[], t, by simpa using h⟩
      · exact ⟨c :: s, t, by simp [h]⟩
    · rintro ⟨s, t, h⟩
      cases s with
      | nil => exact Or.inl ⟨t, by simpa using h⟩
      | cons a s' =>
        right
        refine ⟨s', t, ?_⟩
        have := (List.cons.injEq _ _ _ _).mp (by simpa using h)
        rw [List.append_assoc]
        exact this.2

/-- An occurrence survives being wrapped in surrounding text. -/
theorem occurs_of_middle (pat q a b : List Char) (h : occursList pat q = true) :
    occursList pat (a ++ q ++ b) = true := by
  rw [occurs_iff] at h ⊢
  obtain ⟨s, t, rfl⟩ := h
  exact ⟨a ++ s, t ++ b, by simp⟩

/-- Occurrence of the reversed pattern in the reversed text, one
direction. -/
theorem occurs_rev_aux (pat l : List Char) (h : occursList pat l = true) :
    occursList pat.reverse l.reverse = true := by
  rw [occurs_iff] at h ⊢
  obtain ⟨s, t, rfl⟩ := h
  exact ⟨t.reverse, s.reverse, by simp⟩

/-- Occurrence is invariant under simultaneously reversing pattern and
text. -/
theorem occurs_rev (pat l : List Char) :
    occursList pat.reverse l.reverse = occursList pat l := by
  rw [Bool.eq_iff_iff]
  constructor
  · intro h
    have := occurs_rev_aux pat.reverse l.reverse h
    simpa using this
  · exact occurs_rev_aux pat l

/-- The text is the dropped-while part plus a prefix. -/
theorem dropWhile_decomp (p : Char → Bool) (l : List Char) :
    ∃ u, l = u ++ l.dropWhile p := by
  induction l with
  | nil => exact ⟨[], rfl⟩
  | cons c cs ih =>
    by_cases hc : p c
    · obtain ⟨u, hu⟩ := ih
      exact ⟨c :: u, by rw [List.dropWhile_cons_of_pos hc]; simpa using hu⟩
    · exact ⟨[], by simp [List.dropWhile_cons_of_neg hc]⟩

/-- Stripping leading whitespace does not change whether a pattern whose
head is not whitespace occurs. -/
theorem occurs_dropWhile (pat l : List Char) (h : headNotSpace pat = true) :
    occursList pat (l.dropWhile isPySpace) = occursList pat l := by
  rw [Bool.eq_iff_iff]
  constructor
  · intro ho
    obtain ⟨u, hu⟩ := dropWhile_decomp isPySpace l
    rw [occurs_iff] at ho ⊢
    obtain ⟨s, t, hst⟩ := ho
    exact ⟨u ++ s, t, by rw [hu, hst]; simp⟩
  · intro ho
    induction l with
    | nil => simpa using ho
    | cons c cs ih =>
      by_cases hc : isPySpace c
      · rw [List.dropWhile_cons_of_pos hc]
        apply ih
        cases pat with
        | nil => exact occurs_nil_pat cs
        | cons p ps =>
          simp only [occursList, Bool.or_eq_true] at ho
          rcases ho with hs | ho'
          · exfalso
            simp only [startsList, Bool.and_eq_true, beq_iff_eq] at hs
            obtain ⟨rfl, _⟩ := hs
            simp [headNotSpace, hc] at h
          · exact ho'
      · rwa [List.dropWhile_cons_of_neg hc]

/-- Stripping whitespace at both ends does not change whether a pattern
that neither starts nor ends with whitespace occurs. -/
theorem occurs_trim (pat l : List Char) (h1 : headNotSpace pat = true)
    (h2 : headNotSpace pat.reverse = true) :
    occursList pat (trimChars l) = occursList pat l := by
  unfold trimChars
  have e1 : occursList pat ((l.dropWhile isPySpace).reverse.dropWhile isPySpace).reverse
      = occursList pat.reverse ((l.dropWhile isPySpace).reverse.dropWhile isPySpace) := by
    have := occurs_rev pat.reverse ((l.dropWhile isPySpace).reverse.dropWhile isPySpace)
    simpa using this
  rw [e1, occurs_dropWhile _ _ h2, occurs_rev, occurs_dropWhile _ _ h1]

/-- Stripping the text does not change Python's `in` test for a pattern
that neither starts nor ends with whitespace. -/
theorem strContains_pyStrip (s pat : String) (h1 : headNotSpace pat.data = true)
    (h2 : headNotSpace pat.data.reverse = true) :
    strContains (pyStrip s) pat = strContains s pat :=
  occurs_trim pat.data s.data h1 h2

/-- Stripping the text does not change `containsAnyWord` for trigger
words that neither start nor end with whitespace. -/
theorem containsAny_pyStrip (s : String) (ws : List String)
    (h : ∀ w ∈ ws, headNotSpace w.data && headNotSpace w.data.reverse) :
    containsAnyWord (pyStrip s) ws = containsAnyWord s ws := by
  induction ws with
  | nil => rfl
  | cons w ws ih =>
    have hw := h w (List.mem_cons_self _ _)
    simp only [Bool.and_eq_true] at hw
    simp only [containsAnyWord, List.any_cons] at *
    rw [strContains_pyStrip s w hw.1 hw.2, ih (fun x hx => h x (List.mem_cons_of_mem _ hx))]

/-- `medicalCall` with its local variable inlined. -/
theorem medicalCall_eq (p : String) :
    medicalCall p =
      (if containsAnyWord (pyLower p) influenzaTriggers then influenzaResult
      else if containsAnyWord (pyLower p) coldTriggers then coldResult
      else if containsAnyWord (pyLower p) strepTriggers then strepResult
      else if containsAnyWord (pyLower p) covidTriggers then covidResult
      else noMatchResult) := rfl

/-- The responder's outcome is always one of its five fixed templates. -/
theorem medicalCall_cases (p : String) :
    medicalCall p = influenzaResult ∨ medicalCall p = coldResult ∨
    medicalCall p = strepResult ∨ medicalCall p = covidResult ∨
    medicalCall p = noMatchResult := by
  rw [medicalCall_eq]
  split_ifs <;> simp

/-- A pattern occurring in the lowercased query occurs in the lowercased
formatted prompt. -/
theorem strContains_formatPrompt (pat c q : String)
    (h : strContains (pyLower q) pat = true) :
    strContains (pyLower (formatPrompt c q)) pat = true := by
  unfold strContains pyLower formatPrompt at *
  have hd : (templatePre ++ c ++ templateMid ++ q ++ templatePost).data
      = (templatePre.data ++ c.data ++ templateMid.data) ++ q.data ++ templatePost.data := by
    simp [String.data_append]
  rw [hd, List.map_append, List.map_append]
  exact occurs_of_middle _ _ _ _ h

/-- Decoding inverts encoding on one candidate. -/
theorem decodeCandidate_encode (c : DiagnosisCandidate) :
    decodeCandidate (encodeCandidate c) = some c := rfl

/-- Decoding inverts encoding on a candidate list. -/
theorem decodeCandidates_encode (l : List DiagnosisCandidate) :
    decodeCandidates (l.map encodeCandidate) = some l := by
  induction l with
  | nil => rfl
  | cons c cs ih => simp [decodeCandidates, decodeCandidate_encode, ih]

/-- Decoding inverts encoding on a string list. -/
theorem decodeStrings_encode (l : List String) :
    decodeStrings (l.map JValue.str) = some l := by
  induction l with
  | nil => rfl
  | cons s ss ih => simp [decodeStrings, decodeString, ih]

/-! ## The claims -/

set_option maxRecDepth 200000 in
/-- Claim C1: the claim says the result of `respond` depends only on the
query, the retrieved context never altering the decision. The code
violates this: `_call` keyword-matches over the whole formatted prompt,
so a retrieved document mentioning influenza flips the result for the
same query from the no-match result to the influenza template. -/
theorem C1_context_alters_decision :
    respond "patient has a headache" [] = noMatchResult ∧
    respond "patient has a headache"
      [⟨"Condition: Influenza (Flu). Symptoms: fever, cough, body aches",
        ⟨"Influenza (Flu)", "CDC"⟩⟩] = influenzaResult ∧
    noMatchResult ≠ influenzaResult :=
  ⟨by decide, by decide, by decide⟩

/-- Claim C2: the responder is extensionally the spec's procedure:
normalize (lowercase, trim), then return the template of the first
matcher in the priority order Influenza, Common Cold, Strep Pharyngitis,
COVID-19 whose trigger-term set intersects the normalized input, the
no-match result if none fires. -/
theorem C2_first_match_wins (q : String) : medicalCall q = responderSpec q := by
  rw [medicalCall_eq]
  simp only [responderSpec, specMatchers, firstMatch]
  rw [containsAny_pyStrip (pyLower q) influenzaTriggers (by decide),
    containsAny_pyStrip (pyLower q) coldTriggers (by decide),
    containsAny_pyStrip (pyLower q) strepTriggers (by decide),
    containsAny_pyStrip (pyLower q) covidTriggers (by decide)]

/-- Claim C3: every candidate condition in a result of the responder is
one of the five configured condition names. -/
theorem C3_no_hallucinated_conditions (query : String) (docs : List Document)
    (cand : DiagnosisCandidate)
    (h : cand ∈ (respond query docs).differential_diagnosis) :
    cand.condition ∈ configuredConditions := by
  unfold respond at h
  rcases medicalCall_cases (formatPrompt (joinDocs docs) query) with hc | hc | hc | hc | hc <;>
    rw [hc] at h
  · have he : cand = influenzaCandidate := by simpa [influenzaResult] using h
    subst he; decide
  · have he : cand = coldCandidate := by simpa [coldResult] using h
    subst he; decide
  · have he : cand = strepCandidate := by simpa [strepResult] using h
    subst he; decide
  · have he : cand = covidCandidate := by simpa [covidResult] using h
    subst he; decide
  · simp [noMatchResult] at h

set_option maxRecDepth 200000 in
/-- Witness for C3 at the query `"flu"` with no retrieved documents. -/
theorem C3_witness : influenzaCandidate.condition ∈ configuredConditions :=
  C3_no_hallucinated_conditions "flu" [] influenzaCandidate (by decide)

/-- Claim C4: an input in which no trigger term of any matcher occurs
yields the no-match result: empty differential diagnosis, empty red
flags, and the single next step asking for more specific symptoms. -/
theorem C4_no_trigger_no_match (p : String)
    (h : containsAnyWord (pyLower p)
      (influenzaTriggers ++ coldTriggers ++ strepTriggers ++ covidTriggers) = false) :
    medicalCall p = ⟨[], ["Please provide more specific symptoms"], []⟩ := by
  rw [medicalCall_eq]
  rw [containsAnyWord, List.any_eq_false] at h
  have h1 : containsAnyWord (pyLower p) influenzaTriggers = false := by
    rw [containsAnyWord, List.any_eq_false]
    exact fun x hx => h x (by simp [List.mem_append, hx])
  have h2 : containsAnyWord (pyLower p) coldTriggers = false := by
    rw [containsAnyWord, List.any_eq_false]
    exact fun x hx => h x (by simp [List.mem_append, hx])
  have h3 : containsAnyWord (pyLower p) strepTriggers = false := by
    rw [containsAnyWord, List.any_eq_false]
    exact fun x hx => h x (by simp [List.mem_append, hx])
  have h4 : containsAnyWord (pyLower p) covidTriggers = false := by
    rw [containsAnyWord, List.any_eq_false]
    exact fun x hx => h x (by simp [List.mem_append, hx])
  rw [h1, h2, h3, h4]
  simp [noMatchResult]

/-- Witness for C4 at the spec's scenario query. -/
theorem C4_witness :
    medicalCall "patient feels generally unwell"
      = ⟨[], ["Please provide more specific symptoms"], []⟩ :=
  C4_no_trigger_no_match "patient feels generally unwell" (by decide)

/-- Claim C5: the flu scenario query returns exactly the one influenza
candidate with high confidence and non-empty next steps and red flags,
whatever documents retrieval supplies. -/
theorem C5_flu_scenario (docs : List Document) :
    (respond "patient has high fever and body aches, possible flu" docs).differential_diagnosis
      = [⟨"Influenza (Flu)", "High",
          "Based on reported symptoms matching common influenza presentation"⟩] ∧
    (respond "patient has high fever and body aches, possible flu" docs).next_steps ≠ [] ∧
    (respond "patient has high fever and body aches, possible flu" docs).red_flags ≠ [] := by
  have hq : strContains (pyLower "patient has high fever and body aches, possible flu") "flu"
      = true := by decide
  have hp := strContains_formatPrompt "flu" (joinDocs docs)
    "patient has high fever and body aches, possible flu" hq
  have hc : containsAnyWord
      (pyLower (formatPrompt (joinDocs docs) "patient has high fever and body aches, possible flu"))
      influenzaTriggers = true := by
    simp [containsAnyWord, influenzaTriggers, hp]
  have hr : respond "patient has high fever and body aches, possible flu" docs
      = influenzaResult := by
    unfold respond
    rw [medicalCall_eq]
    simp [hc]
  rw [hr]
  exact ⟨rfl, by simp [influenzaResult], by simp [influenzaResult]⟩

/-- Claim C6: the cold scenario query fires the cold matcher and yields
the Common Cold candidate with high confidence. -/
theorem C6_cold_scenario :
    medicalCall "runny nose and sneezing" = coldResult ∧
    coldResult.differential_diagnosis
      = [⟨"Common Cold", "High",
          "Symptoms consistent with viral upper respiratory infection"⟩] :=
  ⟨by decide, rfl⟩

/-- Claim C7: document construction produces exactly one document per
record, in order, whose text concatenates the record's fields in the
stable order condition, symptoms, onset, age group, diagnostic tests,
differential, source, and whose metadata carries that record's condition
and source. -/
theorem C7_one_document_per_record (ks : List ConditionRecord) (h : ks ≠ []) :
    create_documents_from_knowledge ks
      = ks.map (fun c =>
          (⟨"\n        Condition: " ++ c.condition ++
              "\n        Symptoms: " ++ String.intercalate ", " c.symptoms ++
              "\n        Key Factors: Onset: " ++ c.key_factors.onset ++
              ". Age Group: " ++ c.key_factors.age_group ++ "." ++
              "\n        Diagnostic Tests: " ++ String.intercalate ", " c.diagnostic_tests ++
              "\n        Differential Diagnosis: " ++ String.intercalate ", " c.differential ++
              "\n        Source: " ++ c.source ++ "\n        ",
            ⟨c.condition, c.source⟩⟩ : Document)) ∧
    (create_documents_from_knowledge ks).length = ks.length :=
  ⟨rfl, by simp [create_documents_from_knowledge]⟩

/-- Witness for C7 on a one-record knowledge base. -/
theorem C7_witness :
    (create_documents_from_knowledge [sampleRecord]).length = [sampleRecord].length :=
  (C7_one_document_per_record [sampleRecord] (by decide)).2

/-- Counterexample to claim C8: a record missing the required field
`condition` makes the build fail with the untyped library `KeyError`,
not with the typed `ConfigError` the claim names. -/
theorem C8_counterexample :
    buildDocumentsJ [JValue.obj [("symptoms", JValue.arr [])]]
      = Except.error (PyError.keyError "condition") ∧
    PyError.keyError "condition" ≠ PyError.configError :=
  ⟨rfl, by decide⟩

/-- Claim C8 as amended: a record whose dict lacks `condition` fails with
`KeyError "condition"`, and any record failure aborts the whole build
with an error carrying no partial document list. -/
theorem C8_untyped_failure_aborts_build :
    (∀ fields : List (String × JValue),
      fields.find? (fun p => p.1 == "condition") = none →
      documentOfRecordJ (JValue.obj fields) = Except.error (PyError.keyError "condition")) ∧
    (∀ rs : List JValue, (∃ r ∈ rs, ∃ e, documentOfRecordJ r = Except.error e) →
      ∃ e, buildDocumentsJ rs = Except.error e) := by
  constructor
  · intro fields hf
    simp [documentOfRecordJ, dictGet, hf, Bind.bind, Except.bind]
  · intro rs h
    induction rs with
    | nil =>
      obtain ⟨r, hr, _⟩ := h
      cases hr
    | cons a as ih =>
      obtain ⟨r, hr, e, he⟩ := h
      rcases List.mem_cons.mp hr with h1 | hmem
      · subst h1
        exact ⟨e, by simp [buildDocumentsJ, he]⟩
      · cases hda : documentOfRecordJ a with
        | error e2 => exact ⟨e2, by simp [buildDocumentsJ, hda]⟩
        | ok d =>
          obtain ⟨e3, he3⟩ := ih ⟨r, hmem, e, he⟩
          exact ⟨e3, by simp [buildDocumentsJ, hda, he3]⟩

/-- Witness for the amended C8 on a record missing `condition`. -/
theorem C8_witness :
    ∃ e, buildDocumentsJ [JValue.obj [("symptoms", JValue.arr [])]] = Except.error e :=
  C8_untyped_failure_aborts_build.2 [JValue.obj [("symptoms", JValue.arr [])]]
    ⟨JValue.obj [("symptoms", JValue.arr [])], List.mem_singleton_self _,
      PyError.keyError "condition",
      C8_untyped_failure_aborts_build.1 [("symptoms", JValue.arr [])] rfl⟩

/-- Claim C9: decoding a parsed encoded `DiagnosisResult` yields the
original, field for field. -/
theorem C9_roundtrip (r : DiagnosisResult) :
    decodeDiagnosisResult (encodeDiagnosisResult r) = some r := by
  obtain ⟨dd, ns, rf⟩ := r
  simp [decodeDiagnosisResult, encodeDiagnosisResult, jsonGetD,
    decodeCandidates_encode, decodeStrings_encode]

/-- Claim C10: every result of the responder carries at most one
diagnosis candidate. -/
theorem C10_at_most_one_candidate (query : String) (docs : List Document) :
    (respond query docs).differential_diagnosis.length ≤ 1 := by
  unfold respond
  rcases medicalCall_cases (formatPrompt (joinDocs docs) query) with hc | hc | hc | hc | hc <;>
    rw [hc] <;> decide

end Hippocrates
